import Mathlib

/-!
Shallow embedding of the `buildkite` package's builds service
(`builds.go`): the build data model, the JSON serialization the transport
applies to a `CreateBuild` body (Go `encoding/json` semantics on the
declared field tags), the query-string encoding of `BuildsListOptions`,
and the seven `BuildsService` operations. Each operation is modelled as a
pure function of an abstract transport; alongside its Go return value it
yields the trace of calls it made to the transport (`NewRequest` / `Do`),
so that statements about request paths, bodies and invocation counts can
be made directly.
-/

namespace Buildkite

/-- JSON values, used for serialized request bodies and decoded response
fragments. Object fields are kept in emission order. -/
inductive Json where
  | str (s : String)
  | num (n : Int)
  | bool (b : Bool)
  | obj (fields : List (String × Json))

/-- Modelled from the spec: timestamp handling (`Timestamp`, `time.Time`) is
an external collaborator excluded from scope (spec §1); an instant is
modelled abstractly by a seconds/nanoseconds representation whose zero value
is the zero time. -/
structure GoTime where
  sec : Int := 0
  nsec : Nat := 0
deriving DecidableEq

/-- Go `time.Time.IsZero`: whether the value is the zero time. -/
def GoTime.IsZero (t : GoTime) : Bool :=
  t.sec == 0 && t.nsec == 0

/-- Stand-in for the RFC3339 rendering the external query encoder applies to
`time.Time` values; no claim depends on the textual form, only on whether the
parameter is present. -/
def GoTime.formatRFC3339 (t : GoTime) : String :=
  toString t.sec ++ "." ++ toString t.nsec

/-- Go `Timestamp` (external collaborator, spec §1) wraps a `time.Time`. -/
abbrev Timestamp := GoTime

/-- Author of a commit (used in CreateBuild). Both fields are plain strings
with `omitempty` tags. -/
structure Author where
  Name : String := ""
  Email : String := ""
deriving DecidableEq

/-- CreateBuild - Create a build. `Commit`, `Branch`, `Message` are required;
the remaining fields sit under the source's `// Optional fields` comment and
carry `omitempty` tags. `Author` is a plain (non-pointer) struct field;
`Env` and `MetaData` are `map[string]string`, modelled as association
lists. -/
structure CreateBuild where
  Commit : String := ""
  Branch : String := ""
  Message : String := ""
  Author : Author := {}
  Env : List (String × String) := []
  MetaData : List (String × String) := []
  IgnorePipelineBranchFilters : Bool := false
  PullRequestBaseBranch : String := ""
  PullRequestID : Int := 0
  PullRequestRepository : String := ""
deriving DecidableEq

/-- Creator represents who created a build. Only `CreatedAt` is a pointer in
the source (`*Timestamp`); the other fields are plain strings without
`omitempty`. -/
structure Creator where
  AvatarURL : String := ""
  CreatedAt : Option Timestamp := none
  Email : String := ""
  ID : String := ""
  Name : String := ""
deriving DecidableEq

/-- PullRequest represents a Github PR; all three fields are `*string` with
`omitempty`. -/
structure PullRequest where
  ID : Option String := none
  Base : Option String := none
  Repository : Option String := none
deriving DecidableEq

/-- Modelled from the spec: `Job` is owned by an external collaborator and is
absent from `src/`; modelled by an identifier only. -/
structure Job where
  id : String := ""
deriving DecidableEq

/-- Modelled from the spec: `Pipeline` is owned by an external collaborator
and is absent from `src/`; modelled by an identifier only. -/
structure Pipeline where
  id : String := ""
deriving DecidableEq

/-- Build represents a build which has run in buildkite. Every field of the
source struct is a pointer, map, slice or interface with `omitempty`;
pointers become `Option`, `map[string]interface{}` an association list into
`Json`, `interface{}` an optional `Json`, `[]*Job` a list. -/
structure Build where
  ID : Option String := none
  URL : Option String := none
  WebURL : Option String := none
  Number : Option Int := none
  State : Option String := none
  Blocked : Option Bool := none
  Message : Option String := none
  Commit : Option String := none
  Branch : Option String := none
  Env : List (String × Json) := []
  CreatedAt : Option Timestamp := none
  ScheduledAt : Option Timestamp := none
  StartedAt : Option Timestamp := none
  FinishedAt : Option Timestamp := none
  MetaData : Option Json := none
  Creator : Option Creator := none
  Jobs : List Job := []
  Pipeline : Option Pipeline := none
  PullRequest : Option PullRequest := none

/-- Insertion step for sorting map entries by key. -/
def insertByKey (p : String × String) : List (String × String) → List (String × String)
  | [] => [p]
  | q :: qs => if p.1 ≤ q.1 then p :: q :: qs else q :: insertByKey p qs

/-- Sort map entries by key: Go `encoding/json` emits map keys in sorted
order. -/
def sortByKey : List (String × String) → List (String × String)
  | [] => []
  | p :: ps => insertByKey p (sortByKey ps)

/-- Go `encoding/json` encoding of a `map[string]string` value. -/
def jsonOfStringMap (m : List (String × String)) : Json :=
  Json.obj ((sortByKey m).map fun kv => (kv.1, Json.str kv.2))

/-- Go `encoding/json` encoding of `Author`: both fields have `omitempty`, and
a string is empty for `omitempty` exactly when it is `""`. -/
def serializeAuthor (a : Author) : Json :=
  Json.obj ((if a.Name = "" then [] else [("name", Json.str a.Name)]) ++
    (if a.Email = "" then [] else [("email", Json.str a.Email)]))

/-- Go `encoding/json` encoding of `CreateBuild`, field by field in declared
order with the declared tags. `omitempty` omits a field whose value is
`false`, `0`, a nil map or the empty string; it never omits a struct-typed
field, so `author` is always emitted (as `{}` when the `Author` is
all-empty). -/
def serializeCreateBuild (b : CreateBuild) : Json :=
  Json.obj (
    [("commit", Json.str b.Commit), ("branch", Json.str b.Branch),
     ("message", Json.str b.Message)] ++
    [("author", serializeAuthor b.Author)] ++
    (if b.Env.isEmpty then [] else [("env", jsonOfStringMap b.Env)]) ++
    (if b.MetaData.isEmpty then [] else [("meta_data", jsonOfStringMap b.MetaData)]) ++
    (if b.IgnorePipelineBranchFilters then
      [("ignore_pipeline_branch_filters", Json.bool true)] else []) ++
    (if b.PullRequestBaseBranch = "" then []
      else [("pull_request_base_branch", Json.str b.PullRequestBaseBranch)]) ++
    (if b.PullRequestID = 0 then []
      else [("pull_request_id", Json.num b.PullRequestID)]) ++
    (if b.PullRequestRepository = "" then []
      else [("pull_request_repository", Json.str b.PullRequestRepository)]))

/-- Keys of a JSON object (empty for non-objects). -/
def Json.objKeys : Json → List String
  | .obj fs => fs.map Prod.fst
  | _ => []

/-- BuildsListOptions specifies the optional parameters to the
BuildsService.List method, with the `url:"...,omitempty"` tags of the source
(`state` additionally carries the `brackets` option). The embedded generic
pagination options (`ListOptions`) are an external collaborator excluded from
the spec's scope (spec §1) and absent from `src/`; no claim concerns them, so
they are not modelled. -/
structure BuildsListOptions where
  Creator : String := ""
  CreatedFrom : GoTime := {}
  CreatedTo : GoTime := {}
  FinishedFrom : GoTime := {}
  State : List String := []
  Branch : String := ""
  Commit : String := ""
deriving DecidableEq

/-- Modelled from the spec: the query encoding applied by `addOptions`
(spec §4.1, §6; the encoder itself is not under `src/`): each populated
filter appears under its `url` tag name, zero-valued fields are omitted
(`omitempty`), the `state` slice uses bracket notation with one parameter
per element, and keys are emitted in the sorted order the external encoder
uses. -/
def queryParams (o : BuildsListOptions) : List (String × String) :=
  (if o.Branch = "" then [] else [("branch", o.Branch)]) ++
  (if o.Commit = "" then [] else [("commit", o.Commit)]) ++
  (if o.CreatedFrom.IsZero then [] else [("created_from", o.CreatedFrom.formatRFC3339)]) ++
  (if o.CreatedTo.IsZero then [] else [("created_to", o.CreatedTo.formatRFC3339)]) ++
  (if o.Creator = "" then [] else [("creator", o.Creator)]) ++
  (if o.FinishedFrom.IsZero then [] else [("finished_from", o.FinishedFrom.formatRFC3339)]) ++
  o.State.map (fun s => ("state[]", s))

/-- Render a (possibly empty) parameter list as the query-string suffix of a
URL: nothing when there are no parameters, otherwise a leading `?`. -/
def renderQuery : List (String × String) → String
  | [] => ""
  | ps => "?" ++ String.intercalate "&" (ps.map fun p => p.1 ++ "=" ++ p.2)

/-- Modelled from the spec: the raw response wrapper returned by the
transport exposes at least HTTP status metadata (spec §6). -/
structure Response where
  StatusCode : Nat := 0
deriving DecidableEq

/-- A request as built by the transport's `NewRequest`: method, URL, and the
serialized body (none when the body argument was nil). -/
structure Request where
  Method : String := ""
  URL : String := ""
  Body : Option Json := none

/-- Outcome of one `Do` execution: success carries the response wrapper and
the value decoded into the destination; failure carries the error and
whatever wrapper (possibly none) the transport produced alongside it. -/
inductive DoResult (α : Type) where
  | ok (resp : Response) (value : α)
  | fail (resp : Option Response) (err : String)

/-- Modelled from the spec: the generic transport collaborator (spec §6),
given as oracles: whether `NewRequest` fails on given arguments, whether the
option encoding inside `addOptions` fails, and the outcome `Do` produces for
a request, for each of the two destination types the builds service uses
(`*Build` and `*[]Build`). -/
structure Transport where
  newRequestErr : String → String → Option CreateBuild → Option String
  addOptionsErr : String → BuildsListOptions → Option String
  doBuild : Request → DoResult Build
  doBuilds : Request → DoResult (List Build)

/-- Modelled from the spec: `NewRequest(method, path, body)` builds a request
object, serializing the body when non-nil using the declared field tags
(spec §6); whether it fails is decided by the `newRequestErr` oracle. -/
def Transport.NewRequest (t : Transport) (method url : String)
    (body : Option CreateBuild) : Except String Request :=
  match t.newRequestErr method url body with
  | some e => Except.error e
  | none => Except.ok { Method := method, URL := url, Body := body.map serializeCreateBuild }

/-- Modelled from the spec: `addOptions(path, opt)` leaves the path untouched
when the options argument is absent (nil pointer), and otherwise appends the
tag-driven query string of spec §4.1; whether the encoding fails is decided
by the `addOptionsErr` oracle. -/
def Transport.addOptions (t : Transport) (s : String) :
    Option BuildsListOptions → Except String String
  | none => Except.ok s
  | some o =>
    match t.addOptionsErr s o with
    | some e => Except.error e
    | none => Except.ok (s ++ renderQuery (queryParams o))

/-- Trace of the transport invocations an operation performs: the arguments
it passes to `NewRequest`, and each request it passes to `Do`. -/
inductive Event where
  | newRequestCall (method url : String) (body : Option CreateBuild)
  | doCall (req : Request)

/-- Whether a trace event is an execution of the transport (`Do`). -/
def Event.isDo : Event → Bool
  | .doCall _ => true
  | _ => false

/-- The `Do` executions recorded in a trace. -/
def doCalls (evs : List Event) : List Event :=
  evs.filter Event.isDo

/-- BuildsService handles communication with the build related methods of the
buildkite API; it holds only the shared transport client. -/
structure BuildsService where
  client : Transport

/-- Go return shape `(*Build, error)` of `Cancel`/`Rebuild`, paired with the
recorded transport trace. -/
abbrev CancelResult := (Option Build × Option String) × List Event

/-- Go return shape `(*Build, *Response, error)` of `Create`/`Get`, paired
with the recorded transport trace. -/
abbrev GetResult := (Option Build × Option Response × Option String) × List Event

/-- Go return shape `([]Build, *Response, error)` of the three list
operations, paired with the recorded transport trace. -/
abbrev ListResult := (Option (List Build) × Option Response × Option String) × List Event

/-- Path template of `Cancel`'s `fmt.Sprintf`. -/
def cancelPath (org pipeline build : String) : String :=
  "v2/organizations/" ++ org ++ "/pipelines/" ++ pipeline ++ "/builds/" ++ build ++ "/cancel"

/-- Path template of `Create`'s `fmt.Sprintf`. -/
def createPath (org pipeline : String) : String :=
  "v2/organizations/" ++ org ++ "/pipelines/" ++ pipeline ++ "/builds"

/-- Path template of `Get`'s `fmt.Sprintf`. -/
def getPath (org pipeline id : String) : String :=
  "v2/organizations/" ++ org ++ "/pipelines/" ++ pipeline ++ "/builds/" ++ id

/-- Path of `List`'s `fmt.Sprintf`. -/
def listPath : String :=
  "v2/builds"

/-- Path template of `ListByOrg`'s `fmt.Sprintf`. -/
def listByOrgPath (org : String) : String :=
  "v2/organizations/" ++ org ++ "/builds"

/-- Path template of `ListByPipeline`'s `fmt.Sprintf`. -/
def listByPipelinePath (org pipeline : String) : String :=
  "v2/organizations/" ++ org ++ "/pipelines/" ++ pipeline ++ "/builds"

/-- Path template of `Rebuild`'s `fmt.Sprintf`. -/
def rebuildPath (org pipeline build : String) : String :=
  "v2/organizations/" ++ org ++ "/pipelines/" ++ pipeline ++ "/builds/" ++ build ++ "/rebuild"

/-- Cancel triggers a cancel for the target build: `PUT` to the cancel path
with nil body; the response wrapper from `Do` is discarded (`_, err = ...`),
and on any error the build pointer returned is nil. -/
def BuildsService.Cancel (bs : BuildsService) (org pipeline build : String) :
    CancelResult :=
  match bs.client.NewRequest "PUT" (cancelPath org pipeline build) none with
  | Except.error err =>
      ((none, some err), [Event.newRequestCall "PUT" (cancelPath org pipeline build) none])
  | Except.ok req =>
    match bs.client.doBuild req with
    | DoResult.fail _ err =>
        ((none, some err),
          [Event.newRequestCall "PUT" (cancelPath org pipeline build) none, Event.doCall req])
    | DoResult.ok _ result =>
        ((some result, none),
          [Event.newRequestCall "PUT" (cancelPath org pipeline build) none, Event.doCall req])

/-- Create - Create a build: `POST` to the builds path with the (possibly
nil) `CreateBuild` pointer as body; returns the decoded build, the response
wrapper, and the error, with a nil build on any error. -/
def BuildsService.Create (bs : BuildsService) (org pipeline : String)
    (b : Option CreateBuild) :
    GetResult :=
  match bs.client.NewRequest "POST" (createPath org pipeline) b with
  | Except.error err =>
      ((none, none, some err), [Event.newRequestCall "POST" (createPath org pipeline) b])
  | Except.ok req =>
    match bs.client.doBuild req with
    | DoResult.fail resp err =>
        ((none, resp, some err),
          [Event.newRequestCall "POST" (createPath org pipeline) b, Event.doCall req])
    | DoResult.ok resp build =>
        ((some build, some resp, none),
          [Event.newRequestCall "POST" (createPath org pipeline) b, Event.doCall req])

/-- Get fetches a build: `GET` to the build path with nil body; returns the
decoded build, the response wrapper, and the error, with a nil build and the
wrapper passed through on a `Do` error. -/
def BuildsService.Get (bs : BuildsService) (org pipeline id : String) :
    GetResult :=
  match bs.client.NewRequest "GET" (getPath org pipeline id) none with
  | Except.error err =>
      ((none, none, some err), [Event.newRequestCall "GET" (getPath org pipeline id) none])
  | Except.ok req =>
    match bs.client.doBuild req with
    | DoResult.fail resp err =>
        ((none, resp, some err),
          [Event.newRequestCall "GET" (getPath org pipeline id) none, Event.doCall req])
    | DoResult.ok resp build =>
        ((some build, some resp, none),
          [Event.newRequestCall "GET" (getPath org pipeline id) none, Event.doCall req])

/-- List the builds for the current user: the options are encoded onto the
path by `addOptions`, then a `GET` with nil body is issued. -/
def BuildsService.List (bs : BuildsService) (opt : Option BuildsListOptions) :
    ListResult :=
  match bs.client.addOptions listPath opt with
  | Except.error err => ((none, none, some err), [])
  | Except.ok u =>
    match bs.client.NewRequest "GET" u none with
    | Except.error err => ((none, none, some err), [Event.newRequestCall "GET" u none])
    | Except.ok req =>
      match bs.client.doBuilds req with
      | DoResult.fail resp err =>
          ((none, resp, some err), [Event.newRequestCall "GET" u none, Event.doCall req])
      | DoResult.ok resp builds =>
          ((some builds, some resp, none), [Event.newRequestCall "GET" u none, Event.doCall req])

/-- ListByOrg lists the builds within the specified organisation. -/
def BuildsService.ListByOrg (bs : BuildsService) (org : String)
    (opt : Option BuildsListOptions) :
    ListResult :=
  match bs.client.addOptions (listByOrgPath org) opt with
  | Except.error err => ((none, none, some err), [])
  | Except.ok u =>
    match bs.client.NewRequest "GET" u none with
    | Except.error err => ((none, none, some err), [Event.newRequestCall "GET" u none])
    | Except.ok req =>
      match bs.client.doBuilds req with
      | DoResult.fail resp err =>
          ((none, resp, some err), [Event.newRequestCall "GET" u none, Event.doCall req])
      | DoResult.ok resp builds =>
          ((some builds, some resp, none), [Event.newRequestCall "GET" u none, Event.doCall req])

/-- ListByPipeline lists the builds for a pipeline within the specified
organisation. -/
def BuildsService.ListByPipeline (bs : BuildsService) (org pipeline : String)
    (opt : Option BuildsListOptions) :
    ListResult :=
  match bs.client.addOptions (listByPipelinePath org pipeline) opt with
  | Except.error err => ((none, none, some err), [])
  | Except.ok u =>
    match bs.client.NewRequest "GET" u none with
    | Except.error err => ((none, none, some err), [Event.newRequestCall "GET" u none])
    | Except.ok req =>
      match bs.client.doBuilds req with
      | DoResult.fail resp err =>
          ((none, resp, some err), [Event.newRequestCall "GET" u none, Event.doCall req])
      | DoResult.ok resp builds =>
          ((some builds, some resp, none), [Event.newRequestCall "GET" u none, Event.doCall req])

/-- Rebuild triggers a rebuild for the target build: `PUT` to the rebuild
path with nil body; the response wrapper from `Do` is discarded, and on any
error the build pointer returned is nil. -/
def BuildsService.Rebuild (bs : BuildsService) (org pipeline build : String) :
    CancelResult :=
  match bs.client.NewRequest "PUT" (rebuildPath org pipeline build) none with
  | Except.error err =>
      ((none, some err), [Event.newRequestCall "PUT" (rebuildPath org pipeline build) none])
  | Except.ok req =>
    match bs.client.doBuild req with
    | DoResult.fail _ err =>
        ((none, some err),
          [Event.newRequestCall "PUT" (rebuildPath org pipeline build) none, Event.doCall req])
    | DoResult.ok _ result =>
        ((some result, none),
          [Event.newRequestCall "PUT" (rebuildPath org pipeline build) none, Event.doCall req])

/-- One field of the build data model as declared in the source: owning
struct, wire (tag) name, whether the source marks the field optional (an
`omitempty` tag, all of which in this file appear on fields that are indeed
optional, including everything under `CreateBuild`'s explicit
`// Optional fields` comment), and whether its Go type is nilable (pointer,
map, slice or interface), i.e. carries an explicit presence marker. -/
structure FieldDecl where
  owner : String
  name : String
  optional : Bool
  nullable : Bool
deriving DecidableEq

/-- The field declarations of `Build`, `CreateBuild`, `Creator` and
`PullRequest`, transcribed from the source structs. -/
def dataModelFields : List FieldDecl := [
  -- Build: every field is a pointer, map, slice or interface, with omitempty
  ⟨"Build", "id", true, true⟩,
  ⟨"Build", "url", true, true⟩,
  ⟨"Build", "web_url", true, true⟩,
  ⟨"Build", "number", true, true⟩,
  ⟨"Build", "state", true, true⟩,
  ⟨"Build", "blocked", true, true⟩,
  ⟨"Build", "message", true, true⟩,
  ⟨"Build", "commit", true, true⟩,
  ⟨"Build", "branch", true, true⟩,
  ⟨"Build", "env", true, true⟩,
  ⟨"Build", "created_at", true, true⟩,
  ⟨"Build", "scheduled_at", true, true⟩,
  ⟨"Build", "started_at", true, true⟩,
  ⟨"Build", "finished_at", true, true⟩,
  ⟨"Build", "meta_data", true, true⟩,
  ⟨"Build", "creator", true, true⟩,
  ⟨"Build", "jobs", true, true⟩,
  ⟨"Build", "pipeline", true, true⟩,
  ⟨"Build", "pull_request", true, true⟩,
  -- CreateBuild: required commit/branch/message, then the optional fields,
  -- of which only the two maps are nilable; author is a plain struct,
  -- the rest plain bool/string/int64 values
  ⟨"CreateBuild", "commit", false, false⟩,
  ⟨"CreateBuild", "branch", false, false⟩,
  ⟨"CreateBuild", "message", false, false⟩,
  ⟨"CreateBuild", "author", true, false⟩,
  ⟨"CreateBuild", "env", true, true⟩,
  ⟨"CreateBuild", "meta_data", true, true⟩,
  ⟨"CreateBuild", "ignore_pipeline_branch_filters", true, false⟩,
  ⟨"CreateBuild", "pull_request_base_branch", true, false⟩,
  ⟨"CreateBuild", "pull_request_id", true, false⟩,
  ⟨"CreateBuild", "pull_request_repository", true, false⟩,
  -- Creator: no omitempty tags; only created_at is a pointer
  ⟨"Creator", "avatar_url", false, false⟩,
  ⟨"Creator", "created_at", false, true⟩,
  ⟨"Creator", "email", false, false⟩,
  ⟨"Creator", "id", false, false⟩,
  ⟨"Creator", "name", false, false⟩,
  -- PullRequest: three *string fields with omitempty
  ⟨"PullRequest", "id", true, true⟩,
  ⟨"PullRequest", "base", true, true⟩,
  ⟨"PullRequest", "repository", true, true⟩]

/-- A transport on which every oracle succeeds: requests are always built,
`Do` decodes a fixed build (or an empty list of builds) with status 200. -/
def okTransport : Transport where
  newRequestErr := fun _ _ _ => none
  addOptionsErr := fun _ _ => none
  doBuild := fun _ => DoResult.ok { StatusCode := 200 }
    { ID := some "b-1", State := some "running" }
  doBuilds := fun _ => DoResult.ok { StatusCode := 200 } []

/-- A transport on which request construction always fails. -/
def failTransport : Transport where
  newRequestErr := fun _ _ _ => some "construct error"
  addOptionsErr := fun _ _ => some "encode error"
  doBuild := fun _ => DoResult.fail none "network error"
  doBuilds := fun _ => DoResult.fail none "network error"

/-- A transport on which requests are built but every execution fails with an
HTTP 404 wrapper, as a non-2xx remote response does. -/
def httpErrTransport : Transport where
  newRequestErr := fun _ _ _ => none
  addOptionsErr := fun _ _ => none
  doBuild := fun _ => DoResult.fail (some { StatusCode := 404 }) "not found"
  doBuilds := fun _ => DoResult.fail (some { StatusCode := 404 }) "not found"

/-- C1: at the spec's scenario input
`CreateBuild{Commit:"abc123", Branch:"main", Message:"deploy"}` (all optional
fields empty), the body serialized for `Create` is not the claimed
`{"commit":"abc123","branch":"main","message":"deploy"}`: it additionally
contains the key `author` with value `{}`, because the `omitempty` tag on the
struct-typed `Author` field never takes effect in Go's `encoding/json`;
indeed the `author` key is present in the serialized body of every
`CreateBuild`. -/
theorem createBody_always_emits_author :
    serializeCreateBuild { Commit := "abc123", Branch := "main", Message := "deploy" } =
      Json.obj [("commit", Json.str "abc123"), ("branch", Json.str "main"),
        ("message", Json.str "deploy"), ("author", Json.obj [])] ∧
    ∀ b : CreateBuild, "author" ∈ (serializeCreateBuild b).objKeys := by
  refine ⟨rfl, fun b => ?_⟩
  simp [serializeCreateBuild, Json.objKeys]

/-- C2 counterexample: the data model does contain an optional field without
a presence marker: `CreateBuild`'s `ignore_pipeline_branch_filters` (under
the source's `// Optional fields` comment, with `omitempty`) is a plain
`bool`, so the invariant "every optional field is nullable" fails on
`dataModelFields`. -/
theorem createBuild_optional_field_not_nullable :
    FieldDecl.mk "CreateBuild" "ignore_pipeline_branch_filters" true false ∈ dataModelFields ∧
    ¬ ∀ f ∈ dataModelFields, f.optional = true → f.nullable = true := by
  refine ⟨by decide, fun h => ?_⟩
  exact absurd
    (h (FieldDecl.mk "CreateBuild" "ignore_pipeline_branch_filters" true false) (by decide) rfl)
    (by decide)

/-- C2 amended: every optional field of `Build`, `Creator` and `PullRequest`
carries a nullable presence marker, and so do `CreateBuild`'s `env` and
`meta_data` maps; the exceptions are exactly `CreateBuild`'s plain-valued
optional fields `author`, `ignore_pipeline_branch_filters`,
`pull_request_base_branch`, `pull_request_id` and
`pull_request_repository`. -/
theorem optional_fields_nullable_except_createBuild :
    ∀ f ∈ dataModelFields, f.optional = true →
      (f.nullable = true ∨ (f.owner = "CreateBuild" ∧
        (f.name = "author" ∨ f.name = "ignore_pipeline_branch_filters" ∨
         f.name = "pull_request_base_branch" ∨ f.name = "pull_request_id" ∨
         f.name = "pull_request_repository"))) := by
  decide

/-- Witness for the amended C2 theorem at the concrete field `Build.id`. -/
theorem optional_fields_nullable_except_createBuild_witness :
    (FieldDecl.mk "Build" "id" true true).nullable = true ∨
      ((FieldDecl.mk "Build" "id" true true).owner = "CreateBuild" ∧
        ((FieldDecl.mk "Build" "id" true true).name = "author" ∨
         (FieldDecl.mk "Build" "id" true true).name = "ignore_pipeline_branch_filters" ∨
         (FieldDecl.mk "Build" "id" true true).name = "pull_request_base_branch" ∨
         (FieldDecl.mk "Build" "id" true true).name = "pull_request_id" ∨
         (FieldDecl.mk "Build" "id" true true).name = "pull_request_repository")) :=
  optional_fields_nullable_except_createBuild
    (FieldDecl.mk "Build" "id" true true) (by decide) rfl

/-- The first trace entry of `Cancel` is always its `NewRequest` call. -/
theorem Cancel_head (bs : BuildsService) (org pipeline build : String) :
    (bs.Cancel org pipeline build).2.head? =
      some (Event.newRequestCall "PUT" (cancelPath org pipeline build) none) := by
  unfold BuildsService.Cancel
  rcases h : bs.client.NewRequest "PUT" (cancelPath org pipeline build) none with e | req
  · simp [h]
  · rcases hd : bs.client.doBuild req with ⟨r, v⟩ | ⟨r, e⟩ <;> simp [h, hd]

/-- The first trace entry of `Rebuild` is always its `NewRequest` call. -/
theorem Rebuild_head (bs : BuildsService) (org pipeline build : String) :
    (bs.Rebuild org pipeline build).2.head? =
      some (Event.newRequestCall "PUT" (rebuildPath org pipeline build) none) := by
  unfold BuildsService.Rebuild
  rcases h : bs.client.NewRequest "PUT" (rebuildPath org pipeline build) none with e | req
  · simp [h]
  · rcases hd : bs.client.doBuild req with ⟨r, v⟩ | ⟨r, e⟩ <;> simp [h, hd]

/-- The first trace entry of `Create` is always its `NewRequest` call,
carrying the caller's body. -/
theorem Create_head (bs : BuildsService) (org pipeline : String)
    (b : Option CreateBuild) :
    (bs.Create org pipeline b).2.head? =
      some (Event.newRequestCall "POST" (createPath org pipeline) b) := by
  unfold BuildsService.Create
  rcases h : bs.client.NewRequest "POST" (createPath org pipeline) b with e | req
  · simp [h]
  · rcases hd : bs.client.doBuild req with ⟨r, v⟩ | ⟨r, e⟩ <;> simp [h, hd]

/-- The first trace entry of `Get` is always its `NewRequest` call. -/
theorem Get_head (bs : BuildsService) (org pipeline id : String) :
    (bs.Get org pipeline id).2.head? =
      some (Event.newRequestCall "GET" (getPath org pipeline id) none) := by
  unfold BuildsService.Get
  rcases h : bs.client.NewRequest "GET" (getPath org pipeline id) none with e | req
  · simp [h]
  · rcases hd : bs.client.doBuild req with ⟨r, v⟩ | ⟨r, e⟩ <;> simp [h, hd]

/-- C3: for every organisation, pipeline and build id, `Cancel` passes the
request constructor the method `PUT`, the exact cancel path template, and a
nil body, and `Rebuild` does the same with the rebuild path template. -/
theorem cancel_rebuild_request_line (bs : BuildsService) (org pipeline build : String) :
    (bs.Cancel org pipeline build).2.head? =
      some (Event.newRequestCall "PUT"
        ("v2/organizations/" ++ org ++ "/pipelines/" ++ pipeline ++
          "/builds/" ++ build ++ "/cancel") none) ∧
    (bs.Rebuild org pipeline build).2.head? =
      some (Event.newRequestCall "PUT"
        ("v2/organizations/" ++ org ++ "/pipelines/" ++ pipeline ++
          "/builds/" ++ build ++ "/rebuild") none) :=
  ⟨Cancel_head bs org pipeline build, Rebuild_head bs org pipeline build⟩

/-- A key occurs among the keys of a parameter list exactly when it occurs
paired with some value. -/
theorem key_mem_map_fst (l : List (String × String)) (k : String) :
    k ∈ l.map Prod.fst ↔ ∃ v, (k, v) ∈ l := by
  constructor
  · intro h
    rcases List.mem_map.mp h with ⟨⟨a, b⟩, hab, rfl⟩
    exact ⟨b, hab⟩
  · rintro ⟨v, hv⟩
    exact List.mem_map.mpr ⟨(k, v), hv, rfl⟩

/-- Membership in a conditionally-omitted singleton parameter. -/
theorem mem_if_nil_single (c : Prop) [Decidable c] (p q : String × String) :
    (p ∈ (if c then ([] : List (String × String)) else [q])) ↔ (¬ c ∧ p = q) := by
  split_ifs with h <;> simp [h]

/-- Characterization of the encoded query parameters: a pair is present
exactly when it is a populated filter under its declared tag name, with
`state` contributing one bracketed parameter per element. -/
theorem queryParams_mem (o : BuildsListOptions) (k v : String) :
    (k, v) ∈ queryParams o ↔
      ((k = "branch" ∧ v = o.Branch ∧ ¬ o.Branch = "") ∨
       (k = "commit" ∧ v = o.Commit ∧ ¬ o.Commit = "") ∨
       (k = "created_from" ∧ v = o.CreatedFrom.formatRFC3339 ∧
         ¬ o.CreatedFrom.IsZero = true) ∨
       (k = "created_to" ∧ v = o.CreatedTo.formatRFC3339 ∧
         ¬ o.CreatedTo.IsZero = true) ∨
       (k = "creator" ∧ v = o.Creator ∧ ¬ o.Creator = "") ∨
       (k = "finished_from" ∧ v = o.FinishedFrom.formatRFC3339 ∧
         ¬ o.FinishedFrom.IsZero = true) ∨
       (k = "state[]" ∧ v ∈ o.State)) := by
  simp only [queryParams, List.mem_append, mem_if_nil_single, List.mem_map,
    Prod.mk.injEq]
  aesop

/-- The URL a list-style operation passes to the request constructor once the
option encoding has succeeded: the base path, with the rendered query of the
options when they are present. -/
def listURLOf (base : String) : Option BuildsListOptions → String
  | none => base
  | some o => base ++ renderQuery (queryParams o)

/-- Whenever `List`'s trace has a first event, it is the `NewRequest` call
with method `GET`, the determinate URL, and nil body. -/
theorem List_head (bs : BuildsService) (opt : Option BuildsListOptions) (e : Event)
    (h : (bs.List opt).2.head? = some e) :
    e = Event.newRequestCall "GET" (listURLOf listPath opt) none := by
  unfold BuildsService.List at h
  rcases opt with _ | o
  · rcases h1 : bs.client.NewRequest "GET" listPath none with e1 | req
    · simp only [Transport.addOptions, h1, List.head?] at h
      exact (Option.some_inj.mp h).symm
    · rcases hd : bs.client.doBuilds req with ⟨r, bsx⟩ | ⟨r, e1⟩ <;>
        · simp only [Transport.addOptions, h1, hd, List.head?] at h
          exact (Option.some_inj.mp h).symm
  · rcases h0 : bs.client.addOptionsErr listPath o with _ | e0
    · rcases h1 : bs.client.NewRequest "GET" (listPath ++ renderQuery (queryParams o)) none with e1 | req
      · simp only [Transport.addOptions, h0, h1, List.head?] at h
        exact (Option.some_inj.mp h).symm
      · rcases hd : bs.client.doBuilds req with ⟨r, bsx⟩ | ⟨r, e1⟩ <;>
          · simp only [Transport.addOptions, h0, h1, hd, List.head?] at h
            exact (Option.some_inj.mp h).symm
    · simp only [Transport.addOptions, h0, List.head?] at h
      exact absurd h (by simp)

/-- Whenever `ListByOrg`'s trace has a first event, it is the `NewRequest`
call with method `GET`, the determinate URL, and nil body. -/
theorem ListByOrg_head (bs : BuildsService) (org : String)
    (opt : Option BuildsListOptions) (e : Event)
    (h : (bs.ListByOrg org opt).2.head? = some e) :
    e = Event.newRequestCall "GET" (listURLOf (listByOrgPath org) opt) none := by
  unfold BuildsService.ListByOrg at h
  rcases opt with _ | o
  · rcases h1 : bs.client.NewRequest "GET" (listByOrgPath org) none with e1 | req
    · simp only [Transport.addOptions, h1, List.head?] at h
      exact (Option.some_inj.mp h).symm
    · rcases hd : bs.client.doBuilds req with ⟨r, bsx⟩ | ⟨r, e1⟩ <;>
        · simp only [Transport.addOptions, h1, hd, List.head?] at h
          exact (Option.some_inj.mp h).symm
  · rcases h0 : bs.client.addOptionsErr (listByOrgPath org) o with _ | e0
    · rcases h1 : bs.client.NewRequest "GET"
          (listByOrgPath org ++ renderQuery (queryParams o)) none with e1 | req
      · simp only [Transport.addOptions, h0, h1, List.head?] at h
        exact (Option.some_inj.mp h).symm
      · rcases hd : bs.client.doBuilds req with ⟨r, bsx⟩ | ⟨r, e1⟩ <;>
          · simp only [Transport.addOptions, h0, h1, hd, List.head?] at h
            exact (Option.some_inj.mp h).symm
    · simp only [Transport.addOptions, h0, List.head?] at h
      exact absurd h (by simp)

/-- Whenever `ListByPipeline`'s trace has a first event, it is the
`NewRequest` call with method `GET`, the determinate URL, and nil body. -/
theorem ListByPipeline_head (bs : BuildsService) (org pipeline : String)
    (opt : Option BuildsListOptions) (e : Event)
    (h : (bs.ListByPipeline org pipeline opt).2.head? = some e) :
    e = Event.newRequestCall "GET" (listURLOf (listByPipelinePath org pipeline) opt) none := by
  unfold BuildsService.ListByPipeline at h
  rcases opt with _ | o
  · rcases h1 : bs.client.NewRequest "GET" (listByPipelinePath org pipeline) none with e1 | req
    · simp only [Transport.addOptions, h1, List.head?] at h
      exact (Option.some_inj.mp h).symm
    · rcases hd : bs.client.doBuilds req with ⟨r, bsx⟩ | ⟨r, e1⟩ <;>
        · simp only [Transport.addOptions, h1, hd, List.head?] at h
          exact (Option.some_inj.mp h).symm
  · rcases h0 : bs.client.addOptionsErr (listByPipelinePath org pipeline) o with _ | e0
    · rcases h1 : bs.client.NewRequest "GET"
          (listByPipelinePath org pipeline ++ renderQuery (queryParams o)) none with e1 | req
      · simp only [Transport.addOptions, h0, h1, List.head?] at h
        exact (Option.some_inj.mp h).symm
      · rcases hd : bs.client.doBuilds req with ⟨r, bsx⟩ | ⟨r, e1⟩ <;>
          · simp only [Transport.addOptions, h0, h1, hd, List.head?] at h
            exact (Option.some_inj.mp h).symm
    · simp only [Transport.addOptions, h0, List.head?] at h
      exact absurd h (by simp)

/-- With an absent options argument, `List` passes the plain builds path. -/
theorem List_none_head (bs : BuildsService) :
    (bs.List none).2.head? = some (Event.newRequestCall "GET" listPath none) := by
  unfold BuildsService.List
  simp only [Transport.addOptions]
  rcases h1 : bs.client.NewRequest "GET" listPath none with e1 | req
  · rfl
  · rcases hd : bs.client.doBuilds req with ⟨r, v⟩ | ⟨r, e⟩ <;> simp [hd]

/-- With an absent options argument, `ListByOrg` passes its plain path. -/
theorem ListByOrg_none_head (bs : BuildsService) (org : String) :
    (bs.ListByOrg org none).2.head? =
      some (Event.newRequestCall "GET" (listByOrgPath org) none) := by
  unfold BuildsService.ListByOrg
  simp only [Transport.addOptions]
  rcases h1 : bs.client.NewRequest "GET" (listByOrgPath org) none with e1 | req
  · rfl
  · rcases hd : bs.client.doBuilds req with ⟨r, v⟩ | ⟨r, e⟩ <;> simp [hd]

/-- With an absent options argument, `ListByPipeline` passes its plain
path. -/
theorem ListByPipeline_none_head (bs : BuildsService) (org pipeline : String) :
    (bs.ListByPipeline org pipeline none).2.head? =
      some (Event.newRequestCall "GET" (listByPipelinePath org pipeline) none) := by
  unfold BuildsService.ListByPipeline
  simp only [Transport.addOptions]
  rcases h1 : bs.client.NewRequest "GET" (listByPipelinePath org pipeline) none with e1 | req
  · rfl
  · rcases hd : bs.client.doBuilds req with ⟨r, v⟩ | ⟨r, e⟩ <;> simp [hd]

/-- C4: (i) with an absent (nil) options argument the three list operations
pass their plain paths, with no query string, to the request constructor;
(ii) for every options value, each populated filter field is encoded under
its declared name, the array-valued `state` filter uses bracket notation, and
each zero-valued filter field is omitted entirely; (iii) in particular `List`
with options `{Branch:"main"}` passes `GET v2/builds?branch=main` whenever
the option encoding succeeds. -/
theorem list_options_encoding :
    (∀ bs : BuildsService, ∀ org pipeline : String,
      (bs.List none).2.head? = some (Event.newRequestCall "GET" "v2/builds" none) ∧
      (bs.ListByOrg org none).2.head? =
        some (Event.newRequestCall "GET" ("v2/organizations/" ++ org ++ "/builds") none) ∧
      (bs.ListByPipeline org pipeline none).2.head? =
        some (Event.newRequestCall "GET"
          ("v2/organizations/" ++ org ++ "/pipelines/" ++ pipeline ++ "/builds") none)) ∧
    (∀ o : BuildsListOptions,
      (¬ o.Branch = "" → ("branch", o.Branch) ∈ queryParams o) ∧
      (o.Branch = "" → ¬ "branch" ∈ (queryParams o).map Prod.fst) ∧
      (¬ o.Commit = "" → ("commit", o.Commit) ∈ queryParams o) ∧
      (o.Commit = "" → ¬ "commit" ∈ (queryParams o).map Prod.fst) ∧
      (¬ o.Creator = "" → ("creator", o.Creator) ∈ queryParams o) ∧
      (o.Creator = "" → ¬ "creator" ∈ (queryParams o).map Prod.fst) ∧
      (¬ o.CreatedFrom.IsZero = true →
        ("created_from", o.CreatedFrom.formatRFC3339) ∈ queryParams o) ∧
      (o.CreatedFrom.IsZero = true → ¬ "created_from" ∈ (queryParams o).map Prod.fst) ∧
      (¬ o.CreatedTo.IsZero = true →
        ("created_to", o.CreatedTo.formatRFC3339) ∈ queryParams o) ∧
      (o.CreatedTo.IsZero = true → ¬ "created_to" ∈ (queryParams o).map Prod.fst) ∧
      (¬ o.FinishedFrom.IsZero = true →
        ("finished_from", o.FinishedFrom.formatRFC3339) ∈ queryParams o) ∧
      (o.FinishedFrom.IsZero = true → ¬ "finished_from" ∈ (queryParams o).map Prod.fst) ∧
      (∀ s ∈ o.State, ("state[]", s) ∈ queryParams o) ∧
      (o.State = [] → ¬ "state[]" ∈ (queryParams o).map Prod.fst)) ∧
    (∀ bs : BuildsService,
      bs.client.addOptionsErr listPath { Branch := "main" } = none →
      (bs.List (some { Branch := "main" })).2.head? =
        some (Event.newRequestCall "GET" "v2/builds?branch=main" none)) := by
  refine ⟨fun bs org pipeline => ⟨List_none_head bs, ListByOrg_none_head bs org,
    ListByPipeline_none_head bs org pipeline⟩, fun o => ?_, fun bs h => ?_⟩
  · refine ⟨fun h => (queryParams_mem o _ _).mpr (Or.inl ⟨rfl, rfl, h⟩),
      fun h hk => ?_,
      fun h => (queryParams_mem o _ _).mpr (Or.inr (Or.inl ⟨rfl, rfl, h⟩)),
      fun h hk => ?_,
      fun h => (queryParams_mem o _ _).mpr
        (Or.inr (Or.inr (Or.inr (Or.inr (Or.inl ⟨rfl, rfl, h⟩))))),
      fun h hk => ?_,
      fun h => (queryParams_mem o _ _).mpr (Or.inr (Or.inr (Or.inl ⟨rfl, rfl, h⟩))),
      fun h hk => ?_,
      fun h => (queryParams_mem o _ _).mpr
        (Or.inr (Or.inr (Or.inr (Or.inl ⟨rfl, rfl, h⟩)))),
      fun h hk => ?_,
      fun h => (queryParams_mem o _ _).mpr
        (Or.inr (Or.inr (Or.inr (Or.inr (Or.inr (Or.inl ⟨rfl, rfl, h⟩)))))),
      fun h hk => ?_,
      fun s hs => (queryParams_mem o _ _).mpr
        (Or.inr (Or.inr (Or.inr (Or.inr (Or.inr (Or.inr ⟨rfl, hs⟩)))))),
      fun h hk => ?_⟩ <;>
    · obtain ⟨v, hv⟩ := (key_mem_map_fst _ _).mp hk
      rw [queryParams_mem] at hv
      simp [h] at hv
  · unfold BuildsService.List
    simp only [Transport.addOptions, h]
    rcases h1 : bs.client.NewRequest "GET"
        (listPath ++ renderQuery (queryParams { Branch := "main" })) none with e1 | req
    · rfl
    · rcases hd : bs.client.doBuilds req with ⟨r, v⟩ | ⟨r, e⟩ <;> (simp only [hd]; rfl)

/-- Witness for C4 at the scenario input `{Branch:"main"}` under a transport
whose encoding succeeds. -/
theorem list_options_encoding_witness :
    ("branch", "main") ∈ queryParams { Branch := "main" } ∧
    ¬ "creator" ∈ (queryParams { Branch := "main" }).map Prod.fst ∧
    (BuildsService.List ⟨okTransport⟩ (some { Branch := "main" })).2.head? =
      some (Event.newRequestCall "GET" "v2/builds?branch=main" none) :=
  ⟨(list_options_encoding.2.1 { Branch := "main" }).1 (by decide),
   (list_options_encoding.2.1 { Branch := "main" }).2.2.2.2.2.1 rfl,
   list_options_encoding.2.2 ⟨okTransport⟩ rfl⟩

/-- C5: if request construction succeeds and the transport execution of `Get`
fails (as on a non-2xx remote response), `Get` returns a nil build pointer
and a non-nil error while passing through exactly the raw response wrapper
(possibly absent) that `Do` produced, so the caller can inspect HTTP status
metadata. -/
theorem get_failure_returns_wrapper (bs : BuildsService) (org pipeline id : String)
    (resp : Option Response) (e : String)
    (h1 : bs.client.newRequestErr "GET" (getPath org pipeline id) none = none)
    (h2 : bs.client.doBuild
        { Method := "GET", URL := getPath org pipeline id, Body := none } =
      DoResult.fail resp e) :
    (bs.Get org pipeline id).1 = (none, resp, some e) := by
  unfold BuildsService.Get Transport.NewRequest
  simp [h1, h2]

/-- Witness for C5 on a transport that fails with an HTTP 404 wrapper. -/
theorem get_failure_returns_wrapper_witness :
    (BuildsService.Get ⟨httpErrTransport⟩ "acme" "widget-ci" "42").1 =
      (none, some { StatusCode := 404 }, some "not found") :=
  get_failure_returns_wrapper ⟨httpErrTransport⟩ "acme" "widget-ci" "42"
    (some { StatusCode := 404 }) "not found" rfl rfl

/-- C6: when request construction fails — `NewRequest` for any of the seven
operations, or the option encoding inside `addOptions` for the three list
operations — the operation returns that very error with a nil result, and
the transport is never executed: the recorded trace contains no `Do` call
(on an `addOptions` failure not even a `NewRequest` call is made). -/
theorem construction_failure_no_transport :
    (∀ bs : BuildsService, ∀ org pipeline build e,
      bs.client.newRequestErr "PUT" (cancelPath org pipeline build) none = some e →
      bs.Cancel org pipeline build =
        ((none, some e), [Event.newRequestCall "PUT" (cancelPath org pipeline build) none])) ∧
    (∀ bs : BuildsService, ∀ org pipeline : String, ∀ b : Option CreateBuild, ∀ e : String,
      bs.client.newRequestErr "POST" (createPath org pipeline) b = some e →
      bs.Create org pipeline b =
        ((none, none, some e), [Event.newRequestCall "POST" (createPath org pipeline) b])) ∧
    (∀ bs : BuildsService, ∀ org pipeline id e,
      bs.client.newRequestErr "GET" (getPath org pipeline id) none = some e →
      bs.Get org pipeline id =
        ((none, none, some e), [Event.newRequestCall "GET" (getPath org pipeline id) none])) ∧
    (∀ bs : BuildsService, ∀ org pipeline build e,
      bs.client.newRequestErr "PUT" (rebuildPath org pipeline build) none = some e →
      bs.Rebuild org pipeline build =
        ((none, some e), [Event.newRequestCall "PUT" (rebuildPath org pipeline build) none])) ∧
    (∀ bs : BuildsService, ∀ opt : Option BuildsListOptions, ∀ e : String,
      bs.client.addOptions listPath opt = Except.ok (listURLOf listPath opt) →
      bs.client.newRequestErr "GET" (listURLOf listPath opt) none = some e →
      bs.List opt = ((none, none, some e),
        [Event.newRequestCall "GET" (listURLOf listPath opt) none])) ∧
    (∀ bs : BuildsService, ∀ org : String, ∀ opt : Option BuildsListOptions, ∀ e : String,
      bs.client.addOptions (listByOrgPath org) opt =
        Except.ok (listURLOf (listByOrgPath org) opt) →
      bs.client.newRequestErr "GET" (listURLOf (listByOrgPath org) opt) none = some e →
      bs.ListByOrg org opt = ((none, none, some e),
        [Event.newRequestCall "GET" (listURLOf (listByOrgPath org) opt) none])) ∧
    (∀ bs : BuildsService, ∀ org pipeline : String, ∀ opt : Option BuildsListOptions,
      ∀ e : String,
      bs.client.addOptions (listByPipelinePath org pipeline) opt =
        Except.ok (listURLOf (listByPipelinePath org pipeline) opt) →
      bs.client.newRequestErr "GET"
        (listURLOf (listByPipelinePath org pipeline) opt) none = some e →
      bs.ListByPipeline org pipeline opt = ((none, none, some e),
        [Event.newRequestCall "GET" (listURLOf (listByPipelinePath org pipeline) opt) none])) ∧
    (∀ bs : BuildsService, ∀ o : BuildsListOptions, ∀ e : String,
      bs.client.addOptionsErr listPath o = some e →
      bs.List (some o) = ((none, none, some e), [])) ∧
    (∀ bs : BuildsService, ∀ org : String, ∀ o : BuildsListOptions, ∀ e : String,
      bs.client.addOptionsErr (listByOrgPath org) o = some e →
      bs.ListByOrg org (some o) = ((none, none, some e), [])) ∧
    (∀ bs : BuildsService, ∀ org pipeline : String, ∀ o : BuildsListOptions, ∀ e : String,
      bs.client.addOptionsErr (listByPipelinePath org pipeline) o = some e →
      bs.ListByPipeline org pipeline (some o) = ((none, none, some e), [])) := by
  refine ⟨fun bs org pipeline build e h => ?_, fun bs org pipeline b e h => ?_,
    fun bs org pipeline id e h => ?_, fun bs org pipeline build e h => ?_,
    fun bs opt e h0 h => ?_, fun bs org opt e h0 h => ?_,
    fun bs org pipeline opt e h0 h => ?_,
    fun bs o e h => ?_, fun bs org o e h => ?_, fun bs org pipeline o e h => ?_⟩
  · unfold BuildsService.Cancel Transport.NewRequest
    simp [h]
  · unfold BuildsService.Create Transport.NewRequest
    simp [h]
  · unfold BuildsService.Get Transport.NewRequest
    simp [h]
  · unfold BuildsService.Rebuild Transport.NewRequest
    simp [h]
  · unfold BuildsService.List
    rw [h0]
    unfold Transport.NewRequest
    simp [h]
  · unfold BuildsService.ListByOrg
    rw [h0]
    unfold Transport.NewRequest
    simp [h]
  · unfold BuildsService.ListByPipeline
    rw [h0]
    unfold Transport.NewRequest
    simp [h]
  · unfold BuildsService.List
    simp [Transport.addOptions, h]
  · unfold BuildsService.ListByOrg
    simp [Transport.addOptions, h]
  · unfold BuildsService.ListByPipeline
    simp [Transport.addOptions, h]

/-- Witness for C6 on a transport whose construction oracles always fail,
covering a `NewRequest` failure for each operation and an `addOptions`
failure for each list operation. -/
theorem construction_failure_no_transport_witness :
    BuildsService.Cancel ⟨failTransport⟩ "o" "p" "1" =
      ((none, some "construct error"),
        [Event.newRequestCall "PUT" (cancelPath "o" "p" "1") none]) ∧
    BuildsService.Create ⟨failTransport⟩ "o" "p" none =
      ((none, none, some "construct error"),
        [Event.newRequestCall "POST" (createPath "o" "p") none]) ∧
    BuildsService.Get ⟨failTransport⟩ "o" "p" "1" =
      ((none, none, some "construct error"),
        [Event.newRequestCall "GET" (getPath "o" "p" "1") none]) ∧
    BuildsService.Rebuild ⟨failTransport⟩ "o" "p" "1" =
      ((none, some "construct error"),
        [Event.newRequestCall "PUT" (rebuildPath "o" "p" "1") none]) ∧
    BuildsService.List ⟨failTransport⟩ none =
      ((none, none, some "construct error"),
        [Event.newRequestCall "GET" listPath none]) ∧
    BuildsService.ListByOrg ⟨failTransport⟩ "o" none =
      ((none, none, some "construct error"),
        [Event.newRequestCall "GET" (listByOrgPath "o") none]) ∧
    BuildsService.ListByPipeline ⟨failTransport⟩ "o" "p" none =
      ((none, none, some "construct error"),
        [Event.newRequestCall "GET" (listByPipelinePath "o" "p") none]) ∧
    BuildsService.List ⟨failTransport⟩ (some {}) = ((none, none, some "encode error"), []) ∧
    BuildsService.ListByOrg ⟨failTransport⟩ "o" (some {}) =
      ((none, none, some "encode error"), []) ∧
    BuildsService.ListByPipeline ⟨failTransport⟩ "o" "p" (some {}) =
      ((none, none, some "encode error"), []) :=
  ⟨construction_failure_no_transport.1 ⟨failTransport⟩ "o" "p" "1" "construct error" rfl,
   construction_failure_no_transport.2.1 ⟨failTransport⟩ "o" "p" none "construct error" rfl,
   construction_failure_no_transport.2.2.1 ⟨failTransport⟩ "o" "p" "1" "construct error" rfl,
   construction_failure_no_transport.2.2.2.1 ⟨failTransport⟩ "o" "p" "1" "construct error" rfl,
   construction_failure_no_transport.2.2.2.2.1 ⟨failTransport⟩ none "construct error" rfl rfl,
   construction_failure_no_transport.2.2.2.2.2.1 ⟨failTransport⟩ "o" none
     "construct error" rfl rfl,
   construction_failure_no_transport.2.2.2.2.2.2.1 ⟨failTransport⟩ "o" "p" none
     "construct error" rfl rfl,
   construction_failure_no_transport.2.2.2.2.2.2.2.1 ⟨failTransport⟩ {} "encode error" rfl,
   construction_failure_no_transport.2.2.2.2.2.2.2.2.1 ⟨failTransport⟩ "o" {}
     "encode error" rfl,
   construction_failure_no_transport.2.2.2.2.2.2.2.2.2 ⟨failTransport⟩ "o" "p" {}
     "encode error" rfl⟩

/-- C7: every operation of the builds service executes the transport at most
once per call: whatever the transport oracles answer, each recorded trace
contains at most one `Do` call, so no operation ever retries a failed
request. -/
theorem transport_executed_at_most_once (bs : BuildsService)
    (org pipeline build id : String) (b : Option CreateBuild)
    (opt : Option BuildsListOptions) :
    (doCalls (bs.Cancel org pipeline build).2).length ≤ 1 ∧
    (doCalls (bs.Create org pipeline b).2).length ≤ 1 ∧
    (doCalls (bs.Get org pipeline id).2).length ≤ 1 ∧
    (doCalls (bs.List opt).2).length ≤ 1 ∧
    (doCalls (bs.ListByOrg org opt).2).length ≤ 1 ∧
    (doCalls (bs.ListByPipeline org pipeline opt).2).length ≤ 1 ∧
    (doCalls (bs.Rebuild org pipeline build).2).length ≤ 1 := by
  refine ⟨?_, ?_, ?_, ?_, ?_, ?_, ?_⟩
  · unfold BuildsService.Cancel
    rcases h1 : bs.client.NewRequest "PUT" (cancelPath org pipeline build) none with e | req
    · simp [doCalls, Event.isDo]
    · rcases hd : bs.client.doBuild req with ⟨r, v⟩ | ⟨r, e⟩ <;>
        simp [hd, doCalls, Event.isDo]
  · unfold BuildsService.Create
    rcases h1 : bs.client.NewRequest "POST" (createPath org pipeline) b with e | req
    · simp [doCalls, Event.isDo]
    · rcases hd : bs.client.doBuild req with ⟨r, v⟩ | ⟨r, e⟩ <;>
        simp [hd, doCalls, Event.isDo]
  · unfold BuildsService.Get
    rcases h1 : bs.client.NewRequest "GET" (getPath org pipeline id) none with e | req
    · simp [doCalls, Event.isDo]
    · rcases hd : bs.client.doBuild req with ⟨r, v⟩ | ⟨r, e⟩ <;>
        simp [hd, doCalls, Event.isDo]
  · unfold BuildsService.List
    rcases opt with _ | o
    · rcases h1 : bs.client.NewRequest "GET" listPath none with e | req
      · simp [Transport.addOptions, h1, doCalls, Event.isDo]
      · rcases hd : bs.client.doBuilds req with ⟨r, v⟩ | ⟨r, e⟩ <;>
          simp [Transport.addOptions, h1, hd, doCalls, Event.isDo]
    · rcases h0 : bs.client.addOptionsErr listPath o with _ | e0
      · rcases h1 : bs.client.NewRequest "GET"
            (listPath ++ renderQuery (queryParams o)) none with e | req
        · simp [Transport.addOptions, h0, h1, doCalls, Event.isDo]
        · rcases hd : bs.client.doBuilds req with ⟨r, v⟩ | ⟨r, e⟩ <;>
            simp [Transport.addOptions, h0, h1, hd, doCalls, Event.isDo]
      · simp [Transport.addOptions, h0, doCalls, Event.isDo]
  · unfold BuildsService.ListByOrg
    rcases opt with _ | o
    · rcases h1 : bs.client.NewRequest "GET" (listByOrgPath org) none with e | req
      · simp [Transport.addOptions, h1, doCalls, Event.isDo]
      · rcases hd : bs.client.doBuilds req with ⟨r, v⟩ | ⟨r, e⟩ <;>
          simp [Transport.addOptions, h1, hd, doCalls, Event.isDo]
    · rcases h0 : bs.client.addOptionsErr (listByOrgPath org) o with _ | e0
      · rcases h1 : bs.client.NewRequest "GET"
            (listByOrgPath org ++ renderQuery (queryParams o)) none with e | req
        · simp [Transport.addOptions, h0, h1, doCalls, Event.isDo]
        · rcases hd : bs.client.doBuilds req with ⟨r, v⟩ | ⟨r, e⟩ <;>
            simp [Transport.addOptions, h0, h1, hd, doCalls, Event.isDo]
      · simp [Transport.addOptions, h0, doCalls, Event.isDo]
  · unfold BuildsService.ListByPipeline
    rcases opt with _ | o
    · rcases h1 : bs.client.NewRequest "GET" (listByPipelinePath org pipeline) none with e | req
      · simp [Transport.addOptions, h1, doCalls, Event.isDo]
      · rcases hd : bs.client.doBuilds req with ⟨r, v⟩ | ⟨r, e⟩ <;>
          simp [Transport.addOptions, h1, hd, doCalls, Event.isDo]
    · rcases h0 : bs.client.addOptionsErr (listByPipelinePath org pipeline) o with _ | e0
      · rcases h1 : bs.client.NewRequest "GET"
            (listByPipelinePath org pipeline ++ renderQuery (queryParams o)) none with e | req
        · simp [Transport.addOptions, h0, h1, doCalls, Event.isDo]
        · rcases hd : bs.client.doBuilds req with ⟨r, v⟩ | ⟨r, e⟩ <;>
            simp [Transport.addOptions, h0, h1, hd, doCalls, Event.isDo]
      · simp [Transport.addOptions, h0, doCalls, Event.isDo]
  · unfold BuildsService.Rebuild
    rcases h1 : bs.client.NewRequest "PUT" (rebuildPath org pipeline build) none with e | req
    · simp [doCalls, Event.isDo]
    · rcases hd : bs.client.doBuild req with ⟨r, v⟩ | ⟨r, e⟩ <;>
        simp [hd, doCalls, Event.isDo]

/-- C8: request construction is deterministic and shares no state between
calls: for any two transports (in particular, the same transport before and
after any other call), the `NewRequest` line (method, URL, body) an
operation constructs from equal arguments is identical — unconditionally
for the four build operations, and for the three list operations whenever
both traces contain a request at all. -/
theorem request_construction_deterministic :
    (∀ t u : Transport, ∀ org pipeline build : String,
      (BuildsService.Cancel ⟨t⟩ org pipeline build).2.head? =
        (BuildsService.Cancel ⟨u⟩ org pipeline build).2.head?) ∧
    (∀ t u : Transport, ∀ org pipeline : String, ∀ b : Option CreateBuild,
      (BuildsService.Create ⟨t⟩ org pipeline b).2.head? =
        (BuildsService.Create ⟨u⟩ org pipeline b).2.head?) ∧
    (∀ t u : Transport, ∀ org pipeline id : String,
      (BuildsService.Get ⟨t⟩ org pipeline id).2.head? =
        (BuildsService.Get ⟨u⟩ org pipeline id).2.head?) ∧
    (∀ t u : Transport, ∀ org pipeline build : String,
      (BuildsService.Rebuild ⟨t⟩ org pipeline build).2.head? =
        (BuildsService.Rebuild ⟨u⟩ org pipeline build).2.head?) ∧
    (∀ t u : Transport, ∀ opt : Option BuildsListOptions, ∀ e f : Event,
      (BuildsService.List ⟨t⟩ opt).2.head? = some e →
      (BuildsService.List ⟨u⟩ opt).2.head? = some f → e = f) ∧
    (∀ t u : Transport, ∀ org : String, ∀ opt : Option BuildsListOptions, ∀ e f : Event,
      (BuildsService.ListByOrg ⟨t⟩ org opt).2.head? = some e →
      (BuildsService.ListByOrg ⟨u⟩ org opt).2.head? = some f → e = f) ∧
    (∀ t u : Transport, ∀ org pipeline : String, ∀ opt : Option BuildsListOptions,
      ∀ e f : Event,
      (BuildsService.ListByPipeline ⟨t⟩ org pipeline opt).2.head? = some e →
      (BuildsService.ListByPipeline ⟨u⟩ org pipeline opt).2.head? = some f → e = f) := by
  refine ⟨fun t u org pipeline build => ?_, fun t u org pipeline b => ?_,
    fun t u org pipeline id => ?_, fun t u org pipeline build => ?_,
    fun t u opt e f he hf => ?_, fun t u org opt e f he hf => ?_,
    fun t u org pipeline opt e f he hf => ?_⟩
  · rw [Cancel_head, Cancel_head]
  · rw [Create_head, Create_head]
  · rw [Get_head, Get_head]
  · rw [Rebuild_head, Rebuild_head]
  · rw [List_head ⟨t⟩ opt e he, List_head ⟨u⟩ opt f hf]
  · rw [ListByOrg_head ⟨t⟩ org opt e he, ListByOrg_head ⟨u⟩ org opt f hf]
  · rw [ListByPipeline_head ⟨t⟩ org pipeline opt e he,
      ListByPipeline_head ⟨u⟩ org pipeline opt f hf]

/-- Witness for C8's `List` conjunct at two concrete distinct transports. -/
theorem request_construction_deterministic_witness :
    Event.newRequestCall "GET" "v2/builds" none =
      Event.newRequestCall "GET" "v2/builds" none :=
  request_construction_deterministic.2.2.2.2.1 okTransport httpErrTransport none
    (Event.newRequestCall "GET" "v2/builds" none)
    (Event.newRequestCall "GET" "v2/builds" none) rfl rfl

/-- C9: whenever `Cancel`, `Create`, `Get` or `Rebuild` returns a nil error,
the build pointer it returns is non-nil, so callers never observe a nil
result together with a nil error. -/
theorem nil_error_implies_build (bs : BuildsService)
    (org pipeline build id : String) (b : Option CreateBuild) :
    ((bs.Cancel org pipeline build).1.2 = none →
      ((bs.Cancel org pipeline build).1.1).isSome = true) ∧
    ((bs.Create org pipeline b).1.2.2 = none →
      ((bs.Create org pipeline b).1.1).isSome = true) ∧
    ((bs.Get org pipeline id).1.2.2 = none →
      ((bs.Get org pipeline id).1.1).isSome = true) ∧
    ((bs.Rebuild org pipeline build).1.2 = none →
      ((bs.Rebuild org pipeline build).1.1).isSome = true) := by
  refine ⟨?_, ?_, ?_, ?_⟩
  · unfold BuildsService.Cancel
    rcases h1 : bs.client.NewRequest "PUT" (cancelPath org pipeline build) none with e | req
    · simp
    · rcases hd : bs.client.doBuild req with ⟨r, v⟩ | ⟨r, e⟩ <;> simp [hd]
  · unfold BuildsService.Create
    rcases h1 : bs.client.NewRequest "POST" (createPath org pipeline) b with e | req
    · simp
    · rcases hd : bs.client.doBuild req with ⟨r, v⟩ | ⟨r, e⟩ <;> simp [hd]
  · unfold BuildsService.Get
    rcases h1 : bs.client.NewRequest "GET" (getPath org pipeline id) none with e | req
    · simp
    · rcases hd : bs.client.doBuild req with ⟨r, v⟩ | ⟨r, e⟩ <;> simp [hd]
  · unfold BuildsService.Rebuild
    rcases h1 : bs.client.NewRequest "PUT" (rebuildPath org pipeline build) none with e | req
    · simp
    · rcases hd : bs.client.doBuild req with ⟨r, v⟩ | ⟨r, e⟩ <;> simp [hd]

/-- Witness for C9 on a transport whose executions succeed. -/
theorem nil_error_implies_build_witness :
    ((BuildsService.Cancel ⟨okTransport⟩ "o" "p" "1").1.1).isSome = true ∧
    ((BuildsService.Create ⟨okTransport⟩ "o" "p" none).1.1).isSome = true ∧
    ((BuildsService.Get ⟨okTransport⟩ "o" "p" "1").1.1).isSome = true ∧
    ((BuildsService.Rebuild ⟨okTransport⟩ "o" "p" "1").1.1).isSome = true :=
  ⟨(nil_error_implies_build ⟨okTransport⟩ "o" "p" "1" "1" none).1 rfl,
   (nil_error_implies_build ⟨okTransport⟩ "o" "p" "1" "1" none).2.1 rfl,
   (nil_error_implies_build ⟨okTransport⟩ "o" "p" "1" "1" none).2.2.1 rfl,
   (nil_error_implies_build ⟨okTransport⟩ "o" "p" "1" "1" none).2.2.2 rfl⟩

/-- C10: on a transport-execution failure, `Cancel` and `Rebuild` return only
a nil build and the error: the response wrapper `Do` produced alongside the
failure, even when present, is discarded, and the result type `(*Build,
error)` of these two operations has no response component at all — unlike
the read operations, the caller cannot inspect HTTP status metadata. -/
theorem cancel_rebuild_discard_wrapper (bs : BuildsService)
    (org pipeline build : String) (resp : Option Response) (e : String) :
    (bs.client.newRequestErr "PUT" (cancelPath org pipeline build) none = none →
      bs.client.doBuild
          { Method := "PUT", URL := cancelPath org pipeline build, Body := none } =
        DoResult.fail resp e →
      (bs.Cancel org pipeline build).1 = (none, some e)) ∧
    (bs.client.newRequestErr "PUT" (rebuildPath org pipeline build) none = none →
      bs.client.doBuild
          { Method := "PUT", URL := rebuildPath org pipeline build, Body := none } =
        DoResult.fail resp e →
      (bs.Rebuild org pipeline build).1 = (none, some e)) := by
  constructor <;> intro h1 h2
  · unfold BuildsService.Cancel Transport.NewRequest
    simp [h1, h2]
  · unfold BuildsService.Rebuild Transport.NewRequest
    simp [h1, h2]

/-- Witness for C10 on a transport that fails with an HTTP 404 wrapper: the
wrapper does not appear in the results. -/
theorem cancel_rebuild_discard_wrapper_witness :
    (BuildsService.Cancel ⟨httpErrTransport⟩ "o" "p" "1").1 = (none, some "not found") ∧
    (BuildsService.Rebuild ⟨httpErrTransport⟩ "o" "p" "1").1 = (none, some "not found") :=
  ⟨(cancel_rebuild_discard_wrapper ⟨httpErrTransport⟩ "o" "p" "1"
      (some { StatusCode := 404 }) "not found").1 rfl rfl,
   (cancel_rebuild_discard_wrapper ⟨httpErrTransport⟩ "o" "p" "1"
      (some { StatusCode := 404 }) "not found").2 rfl rfl⟩

end Buildkite
